import Mathlib

/-!
Verification development for the SanctSim public-goods-game simulation
(`code/agent.py`, `code/institution.py`, `code/environment.py`,
`code/parameters.py`).

Shallow embedding conventions:
* Python integers are `Int` (or `Nat` for identifiers and indices).
* Python floats that carry game payoffs are modelled as `ℚ`; the only
  non-integer constant is `PUBLIC_GOOD_MULTIPLIER = 1.6 = 8/5`, and the
  concrete scenarios proved below stay exact in double precision as well.
* Python dicts are association lists with Python's insertion-order/overwrite
  semantics (`dictInsert` below); iteration order of a `json.loads` dict is
  the JSON object's textual order, which we model by giving the mappings as
  lists of key/value pairs.
* Python strings that the parser inspects character-by-character are
  `List Char`; opaque payload strings (reasoning text) are `String`.
* Values coming out of `json.loads` that are fed to Python's `int(...)` are
  modelled by `PyTok`: either a value `int` can convert (carrying the
  resulting integer) or a value on which `int(...)` raises.
* Fallible code returns `Option`; a raised exception that is caught by the
  enclosing `try` is `none`.
-/

namespace SanctSim

/-! ### parameters.py -/

def INITIAL_TOKENS : Int := 1000

def ENDOWMENT_STAGE_1 : Int := 20

def ENDOWMENT_STAGE_2 : Int := 20

def PUBLIC_GOOD_MULTIPLIER : ℚ := 8/5

def MIN_CONTRIBUTION : Int := 0

def MAX_CONTRIBUTION : Int := ENDOWMENT_STAGE_1

def MAX_PUNISHMENT_TOKENS : Int := 20

def PUNISHMENT_EFFECT : Int := 3

def PUNISHMENT_COST : Int := 1

def REWARD_EFFECT : Int := 1

def REWARD_COST : Int := 1

def DISPLAY_PAST_ACTIONS : Nat := 5

/-! ### Python primitives used by the parsers -/

/-- A JSON value fed to Python's `int(...)`: either it converts to the
integer `n` (ints, floats truncated toward zero, digit strings, booleans),
or `int(...)` raises (`bad`). -/
inductive PyTok where
  | val (n : Int)
  | bad
deriving DecidableEq

/-- Python whitespace characters recognised by `str.strip()` (the ones that
can occur in JSON keys). -/
def pyIsSpace (c : Char) : Bool :=
  c = ' ' || c = '\t' || c = '\n' || c = '\r' || c = '\x0b' || c = '\x0c'

/-- `str.strip()` on a Python string modelled as a character list. -/
def pyStrip (s : List Char) : List Char :=
  (s.dropWhile pyIsSpace).reverse.dropWhile pyIsSpace |>.reverse

/-- One decimal digit. -/
def digitVal (c : Char) : Option Nat :=
  if c = '0' then some 0 else if c = '1' then some 1 else if c = '2' then some 2
  else if c = '3' then some 3 else if c = '4' then some 4 else if c = '5' then some 5
  else if c = '6' then some 6 else if c = '7' then some 7 else if c = '8' then some 8
  else if c = '9' then some 9 else none

def digitsToNat (s : List Char) : Option Nat :=
  s.foldl (fun acc c => match acc, digitVal c with
    | some n, some d => some (n * 10 + d)
    | _, _ => none) (some 0)

/-- Python `int(s)` on a string: optional surrounding whitespace, optional
sign, then a nonempty run of decimal digits; anything else raises
(`none`). -/
def pyIntOfStr (s : List Char) : Option Int :=
  let t := pyStrip s
  match t with
  | [] => none
  | c :: rest =>
    if c = '-' then
      if rest = [] then none else (digitsToNat rest).map (fun n => -(n : Int))
    else if c = '+' then
      if rest = [] then none else (digitsToNat rest).map (fun n => (n : Int))
    else (digitsToNat t).map (fun n => (n : Int))

/-- Python-dict insertion into an association list: updating an existing key
keeps its position, a new key is appended (insertion order preserved). -/
def dictInsert {β : Type} (m : List (Nat × β)) (k : Nat) (v : β) : List (Nat × β) :=
  if m.any (fun p => p.1 = k) then
    m.map (fun p => if p.1 = k then (k, v) else p)
  else m ++ [(k, v)]

/-- Sum of the values of an association list (Python `sum(d.values())`). -/
def dictValSum (m : List (Nat × Int)) : Int :=
  (m.map Prod.snd).sum

/-! ### agent.py: parse_punishment_response (lines 615-695) -/

/-- The structured object extracted from the oracle's allocation response:
`reasoning`, and the `punishments` / `rewards` JSON objects as ordered
key/value lists.  Keys are raw Python strings (character lists); values are
whatever `int(...)` will see. -/
structure ParsedAlloc where
  reasoning : String
  punishments : List (List Char × PyTok)
  rewards : List (List Char × PyTok)

/-- `clean_agent_key` (agent.py lines 635-640): strip whitespace, then drop a
leading and trailing double quote when both are present.  (As in Python, the
one-character string `"` satisfies both tests and cleans to the empty
string.) -/
def clean_agent_key (key : List Char) : List Char :=
  let k := pyStrip key
  if k.head? = some '"' && k.getLast? = some '"' then (k.drop 1).dropLast
  else k

/-- One pass of the allocation loops in `parse_punishment_response`
(agent.py lines 656-671 for punishments, 674-687 for rewards): iterate the
entries in order; a key that does not clean to an integer is skipped; an
out-of-range alias is skipped; otherwise `int(tokens)` runs (raising =
`none` aborts the whole parse), the value is clamped to
`max 0 (min tokens remaining)`, recorded into the result dict keyed by the
member's real agent id, the shared budget is decremented, and the loop
breaks as soon as the budget is `≤ 0`. -/
def processAlloc (members : List Nat) :
    List (List Char × PyTok) → Int → List (Nat × Int) →
    Option (List (Nat × Int) × Int)
  | [], rem, acc => some (acc, rem)
  | (key, tv) :: rest, rem, acc =>
    match pyIntOfStr (clean_agent_key key) with
    | none => processAlloc members rest rem acc
    | some n =>
      if 1 ≤ n ∧ n ≤ (members.length : Int) then
        match tv with
        | .bad => none
        | .val t =>
          let t' := max 0 (min t rem)
          let agent_id := members.getD (n - 1).toNat 0
          let acc' := dictInsert acc agent_id t'
          let rem' := rem - t'
          if rem' ≤ 0 then some (acc', rem')
          else processAlloc members rest rem' acc'
      else processAlloc members rest rem acc

/-- `parse_punishment_response` (agent.py lines 615-695), as a pure function
of the extracted structured object (`none` = the JSON extraction or parse
failed) and of the group snapshot's member ids (`group_state['members']`,
which for the sanctioning institution excludes the requesting agent).
Returns `(punishment_allocations, reward_allocations, punishment_reasoning)`;
every failure path returns empty allocations and resets the reasoning to
the empty string. -/
def parse_punishment_response (resp : Option ParsedAlloc) (members : List Nat) :
    List (Nat × Int) × List (Nat × Int) × String :=
  match resp with
  | none => ([], [], "")
  | some r =>
    match processAlloc members r.punishments ENDOWMENT_STAGE_2 [] with
    | none => ([], [], "")
    | some (pAlloc, rem) =>
      match processAlloc members r.rewards rem [] with
      | none => ([], [], "")
      | some (rAlloc, _) => (pAlloc, rAlloc, r.reasoning)

/-! ### agent.py: parse_contribution_response (lines 418-437) -/

/-- The structured object extracted from a contribution response:
`reasoning` (via `data.get('reasoning','')`) and the `contribution` field
(`none` when the key is absent, in which case Python's
`data.get('contribution', ENDOWMENT_STAGE_1 // 2)` supplies the default). -/
structure ParsedContrib where
  reasoning : String
  contribution : Option PyTok

/-- `parse_contribution_response` (agent.py lines 418-437), as a pure
function of the extracted structured object (`none` = extraction/parse
failure).  Returns `(contribution, contribution_reasoning)`.  A present but
unconvertible `contribution` raises inside the `try`, landing in the same
failure path as a malformed response. -/
def parse_contribution_response (resp : Option ParsedContrib) : Int × String :=
  match resp with
  | none => (ENDOWMENT_STAGE_1 / 2, "")
  | some r =>
    match (match r.contribution with
           | none => some (ENDOWMENT_STAGE_1 / 2)
           | some (.val n) => some n
           | some .bad => none) with
    | none => (ENDOWMENT_STAGE_1 / 2, "")
    | some c => (max MIN_CONTRIBUTION (min c MAX_CONTRIBUTION), r.reasoning)

example :
    parse_punishment_response
      (some ⟨"r", [(['1'], .val 15), (['2'], .val 10)], [(['3'], .val 5)]⟩)
      [10, 20, 30]
    = ([(10, 15), (20, 5)], [(30, 0)], "r") := by decide

example :
    parse_punishment_response
      (some ⟨"r", [(['2'], .val 3), (['1'], .bad)], []⟩) [10, 20]
    = ([], [], "") := by decide

/-! ### Agent state (agent.py lines 49-98) -/

/-- One anonymized peer entry as built in environment.py lines 207-215:
exactly the seven fields extracted there, nothing else. -/
structure AnonEntry where
  institution_choice : Option String
  contribution : Int
  received_punishments : Int
  received_rewards : Int
  stage1_payoff : ℚ
  stage2_payoff : ℚ
  total_round_payoff : ℚ
deriving DecidableEq

/-- One element of `anonymous_data_history` (agent.py lines 822-825). -/
structure RoundAnonData where
  round_number : Nat
  anonymous_data : List AnonEntry
deriving DecidableEq

/-- The per-agent entry of a round record (`agent_data`, environment.py
lines 152-170). -/
structure AgentData where
  institution_choice : Option String
  institution_reasoning : String
  contribution : Int
  contribution_reasoning : String
  stage1_payoff : ℚ
  stage2_payoff : ℚ
  payoff : ℚ
  cumulative_payoff : ℚ
  strategy : String
  received_punishments : Int
  received_rewards : Int
  assigned_punishments : List (Nat × Int)
  assigned_rewards : List (Nat × Int)
  punishment_reasoning : String
  deanonymized_punishment_reasoning : String
  rank : String
deriving DecidableEq

instance : Inhabited AgentData :=
  ⟨⟨none, "", 0, "", 0, 0, 0, 0, "", 0, 0, [], [], "", "", ""⟩⟩

/-- The feedback dict appended to an agent's private history
(environment.py lines 182-197): the agent's own round data plus round-level
aggregates. -/
structure Feedback where
  data : AgentData
  round_number : Nat
  avg_payoff_SI : ℚ
  avg_payoff_SFI : ℚ
  avg_contribution_institution : ℚ
deriving DecidableEq

/-- The mutable state of an `Agent` (agent.py `__init__`, lines 61-98),
restricted to the simulation-relevant fields (the API clients and output
directory are external collaborators). -/
structure AgentState where
  agent_id : Nat
  institution_choice : Option String
  contribution : Int
  cumulative_payoff : ℚ
  round_payoff : ℚ
  history : List Feedback
  received_punishments : Int
  received_rewards : Int
  assigned_punishments : List (Nat × Int)
  assigned_rewards : List (Nat × Int)
  round_number : Nat
  strategy : String
  institution_reasoning : String
  contribution_reasoning : String
  punishment_reasoning : String
  anonymous_data_history : List RoundAnonData
  current_round_anonymous_data : Option (List AnonEntry)
  anonymized_id_mapping : List (Nat × Nat)
  deanonymized_punishment_reasoning : String
deriving DecidableEq

/-- `Agent.update_payoff` (agent.py lines 799-806). -/
def update_payoff (a : AgentState) (amount : ℚ) : AgentState :=
  { a with round_payoff := amount, cumulative_payoff := a.cumulative_payoff + amount }

/-- `Agent.receive_punishment` (agent.py lines 848-854). -/
def receive_punishment (a : AgentState) (amount : Int) : AgentState :=
  { a with received_punishments := a.received_punishments + amount }

/-- `Agent.receive_reward` (agent.py lines 856-862). -/
def receive_reward (a : AgentState) (amount : Int) : AgentState :=
  { a with received_rewards := a.received_rewards + amount }

/-- `Agent.update_history` (agent.py lines 808-814). -/
def update_history (a : AgentState) (round_data : Feedback) : AgentState :=
  { a with history := a.history ++ [round_data] }

/-- `Agent.reset_for_new_round` (agent.py lines 816-846): if a current-round
anonymized batch is staged (`is not None`), append it to the bounded
history, evict the oldest entry when the window size is exceeded, and clear
the staging slot; then zero out all round-scoped fields. -/
def reset_for_new_round (a : AgentState) : AgentState :=
  let a :=
    match a.current_round_anonymous_data with
    | some d =>
      let hist := a.anonymous_data_history ++ [RoundAnonData.mk a.round_number d]
      let hist := if hist.length > DISPLAY_PAST_ACTIONS then hist.drop 1 else hist
      { a with anonymous_data_history := hist, current_round_anonymous_data := none }
    | none => a
  { a with
    contribution := 0
    received_punishments := 0
    received_rewards := 0
    assigned_punishments := []
    assigned_rewards := []
    round_payoff := 0
    institution_reasoning := ""
    contribution_reasoning := ""
    punishment_reasoning := ""
    deanonymized_punishment_reasoning := ""
    anonymized_id_mapping := [] }

/-- `Agent.get_stage1_payoff` (agent.py lines 864-881). -/
def get_stage1_payoff (a : AgentState) (group_size : Nat)
    (total_group_contribution : ℚ) : ℚ :=
  let tokens_kept : ℚ := (ENDOWMENT_STAGE_1 : ℚ) - (a.contribution : ℚ)
  let earnings_from_public_good : ℚ :=
    if group_size > 0 then
      PUBLIC_GOOD_MULTIPLIER * total_group_contribution / (group_size : ℚ)
    else 0
  tokens_kept + earnings_from_public_good

/-- `Agent.get_stage2_payoff` (agent.py lines 883-903). -/
def get_stage2_payoff (a : AgentState) : ℚ :=
  let tokens_spent : Int :=
    dictValSum a.assigned_punishments * PUNISHMENT_COST +
    dictValSum a.assigned_rewards * REWARD_COST
  let tokens_remaining : Int := ENDOWMENT_STAGE_2 - tokens_spent
  (tokens_remaining : ℚ) + (a.received_rewards : ℚ) - (a.received_punishments : ℚ)

/-- `Agent.assign_punishment` (agent.py lines 439-457): parse the oracle's
allocation response against the group snapshot and store the result in the
agent's assigned maps (the reasoning is stored by the parser itself; its
deanonymized copy is produced by a separate external oracle call and is not
modelled). -/
def assign_punishment (a : AgentState) (resp : Option ParsedAlloc)
    (members : List Nat) : AgentState × List (Nat × Int) × List (Nat × Int) :=
  let out := parse_punishment_response resp members
  ({ a with
     assigned_punishments := out.1
     assigned_rewards := out.2.1
     punishment_reasoning := out.2.2 },
   out.1, out.2.1)

/-! ### institution.py: base institution and the sanction-free round -/

/-- The round-scoped state of an `Institution` (institution.py lines
14-22). -/
structure InstitutionState where
  members : List AgentState
  total_contribution : Int
  group_size : Nat
  round_number : Nat
  stage1_payoffs : List (Nat × ℚ)
  anonymized_contributions : List Int

/-- `Institution.collect_contributions` (institution.py lines 42-54) with
the members' contributions (decided by the external oracle) already stored
on the member states: recompute the total, the group size and the
anonymized contribution list. -/
def collect_contributions (inst : InstitutionState) : InstitutionState :=
  { inst with
    total_contribution := (inst.members.map (fun a => a.contribution)).sum
    group_size := inst.members.length
    anonymized_contributions := inst.members.map (fun a => a.contribution) }

/-- `Institution.distribute_public_goods` (institution.py lines 56-73):
store every member's stage-one payoff computed from the final institution
total. -/
def distribute_public_goods (inst : InstitutionState) : InstitutionState :=
  { inst with
    stage1_payoffs := inst.members.map (fun a =>
      (a.agent_id,
       get_stage1_payoff a inst.group_size (inst.total_contribution : ℚ))) }

/-- The group snapshot handed to an agent (institution.py lines 75-93). -/
structure GroupState where
  members : List AgentState
  anonymized_contributions : List Int
  group_size : Nat
  round_number : Nat

/-- `Institution.get_group_state` (institution.py lines 75-93), base
variant: full member list plus anonymized aggregates. -/
def get_group_state (inst : InstitutionState) : GroupState :=
  { members := inst.members
    anonymized_contributions := inst.anonymized_contributions
    group_size := inst.group_size
    round_number := inst.round_number }

/-- The sanction-free branch of `Environment.calculate_payoffs`
(environment.py lines 94-103): stage-two payoff is the flat stage-two
endowment; each member's total round payoff is credited via
`update_payoff`. -/
def sfi_calculate_payoffs (inst : InstitutionState) : InstitutionState :=
  { inst with
    members := inst.members.map (fun a =>
      let stage1 := (inst.stage1_payoffs.lookup a.agent_id).getD 0
      let stage2 : ℚ := (ENDOWMENT_STAGE_2 : ℚ)
      update_payoff a (stage1 + stage2)) }

/-! ### institution.py: the sanctioning institution's two-phase sanctions -/

/-- `punishment_matrix` / `reward_matrix` (institution.py lines 105-106):
a dict victim ↦ (dict punisher ↦ tokens). -/
abbrev SanctionMatrix : Type := List (Nat × List (Nat × Int))

/-- The matrix insertion of institution.py lines 123-132: create the
victim's row if absent, then assign `row[punisher] = tokens` with Python
dict semantics. -/
def matrixInsert (m : SanctionMatrix) (victim punisher : Nat) (tokens : Int) :
    SanctionMatrix :=
  if m.any (fun p => p.1 = victim) then
    m.map (fun p => if p.1 = victim then (victim, dictInsert p.2 punisher tokens) else p)
  else m ++ [(victim, [(punisher, tokens)])]

/-- `sum(matrix[agent_id].values())` with 0 when the agent has no row
(institution.py lines 141-144 and 149-152). -/
def matrixRowSum (m : SanctionMatrix) (agent_id : Nat) : Int :=
  match List.lookup agent_id m with
  | some row => dictValSum row
  | none => 0

/-- The state touched by the sanctioning institution's two allocation
phases: the member list and the two matrices (the remaining institution
fields are read-only there). -/
structure SIRound where
  members : List AgentState
  punishment_matrix : SanctionMatrix
  reward_matrix : SanctionMatrix

/-- One iteration of the decide loop in
`SanctioningInstitution.handle_punishments_and_rewards` (institution.py
lines 113-134): build the member's group snapshot (which excludes the
requester, lines 161-172), let the member decide via
`assign_punishment`, and record the returned allocations into the two
matrices keyed by (victim/beneficiary, actor). -/
def handle_one (resps : Nat → Option ParsedAlloc) (st : SIRound) (i : Nat) :
    SIRound :=
  match st.members.get? i with
  | none => st
  | some agent =>
    let group_members :=
      (st.members.filter (fun b => b.agent_id ≠ agent.agent_id)).map
        (fun b => b.agent_id)
    let out := assign_punishment agent (resps agent.agent_id) group_members
    let pm := out.2.1.foldl
      (fun m kv => matrixInsert m kv.1 agent.agent_id kv.2) st.punishment_matrix
    let rm := out.2.2.foldl
      (fun m kv => matrixInsert m kv.1 agent.agent_id kv.2) st.reward_matrix
    { members := st.members.set i out.1, punishment_matrix := pm, reward_matrix := rm }

/-- `SanctioningInstitution.handle_punishments_and_rewards`
(institution.py lines 113-134): every member, in membership order, decides
its allocations; the oracle responses are indexed by agent id. -/
def handle_punishments_and_rewards (resps : Nat → Option ParsedAlloc)
    (st : SIRound) : SIRound :=
  (List.range st.members.length).foldl (handle_one resps) st

/-- The per-member body of
`SanctioningInstitution.apply_punishments_and_rewards` (institution.py
lines 140-159): credit the summed punishment tokens times
`PUNISHMENT_EFFECT` and the summed reward tokens times `REWARD_EFFECT`
(the stage-two payoff computed on line 158 is discarded there). -/
def apply_one (pm rm : SanctionMatrix) (a : AgentState) : AgentState :=
  let a1 := receive_punishment a (matrixRowSum pm a.agent_id * PUNISHMENT_EFFECT)
  receive_reward a1 (matrixRowSum rm a.agent_id * REWARD_EFFECT)

/-- `SanctioningInstitution.apply_punishments_and_rewards` (institution.py
lines 136-159). -/
def apply_punishments_and_rewards (st : SIRound) : SIRound :=
  { st with
    members := st.members.map (apply_one st.punishment_matrix st.reward_matrix) }

/-! ### environment.py: rank computation (record_round_history, lines 121-133) -/

/-- The dict `agent_cumulative_payoffs` (environment.py lines 122-124),
built in population order. -/
def agent_cumulative_payoffs (agents : List AgentState) : List (Nat × ℚ) :=
  agents.map (fun a => (a.agent_id, a.cumulative_payoff))

/-- `sorted_payoffs` (environment.py lines 126-128): Python's `sorted` with
`key = lambda x: x[1]` and `reverse=True` is a stable sort into descending
payoff order; `List.mergeSort` with the flipped comparison has exactly that
behaviour. -/
def sorted_payoffs (agents : List AgentState) : List (Nat × ℚ) :=
  (agent_cumulative_payoffs agents).mergeSort (fun x y => decide (y.2 ≤ x.2))

/-- `agent_ranks` (environment.py lines 129-131): enumerate the sorted list
and assign rank = position + 1. -/
def agent_ranks (agents : List AgentState) : List (Nat × Nat) :=
  (sorted_payoffs agents).enum.map (fun p => (p.2.1, p.1 + 1))

/-- The rank string of environment.py line 169. -/
def rank_string (rank total_agents : Nat) : String :=
  toString rank ++ " out of " ++ toString total_agents

/-! ### environment.py: the round record and the anonymized feed -/

/-- The `agent_data` record of environment.py lines 152-170, as a function
of the agent's state and of the values retrieved on lines 138-149 (the
stage payoffs from the agent's institution and the agent's rank). -/
def mk_agent_data (a : AgentState) (stage1 stage2 : ℚ)
    (rank total_agents : Nat) : AgentData :=
  { institution_choice := a.institution_choice
    institution_reasoning := a.institution_reasoning
    contribution := a.contribution
    contribution_reasoning := a.contribution_reasoning
    stage1_payoff := stage1
    stage2_payoff := stage2
    payoff := stage1 + stage2
    cumulative_payoff := a.cumulative_payoff
    strategy := a.strategy
    received_punishments := a.received_punishments
    received_rewards := a.received_rewards
    assigned_punishments := a.assigned_punishments
    assigned_rewards := a.assigned_rewards
    punishment_reasoning := a.punishment_reasoning
    deanonymized_punishment_reasoning := a.deanonymized_punishment_reasoning
    rank := rank_string rank total_agents }

/-- `round_data['agents']` (environment.py lines 136-173): the per-agent
records keyed by agent id, built over the population in order; the stage
payoffs and rank retrieved for each agent are abstracted as functions of
the agent id. -/
def round_agents_map (agents : List AgentState) (s1 s2 : Nat → ℚ)
    (rk : Nat → Nat) : List (Nat × AgentData) :=
  agents.map (fun a =>
    (a.agent_id,
     mk_agent_data a (s1 a.agent_id) (s2 a.agent_id) (rk a.agent_id) agents.length))

/-- The anonymous-entry projection of environment.py lines 207-215: exactly
institution choice, contribution, the two received totals and the three
payoff figures; no assigned-allocation detail, no identity. -/
def anonymize (d : AgentData) : AnonEntry :=
  { institution_choice := d.institution_choice
    contribution := d.contribution
    received_punishments := d.received_punishments
    received_rewards := d.received_rewards
    stage1_payoff := d.stage1_payoff
    stage2_payoff := d.stage2_payoff
    total_round_payoff := d.payoff }

/-- The observer's current-round anonymized batch (environment.py lines
199-220): for every other agent of the population, in population order,
look its record up in `round_data['agents']` and keep the anonymized
projection.  (In context the lookup never fails; the default is the dummy
record.) -/
def build_anonymous_data (agents : List AgentState)
    (records : List (Nat × AgentData)) (observer_id : Nat) : List AnonEntry :=
  (agents.filter (fun o => o.agent_id ≠ observer_id)).map (fun o =>
    anonymize ((List.lookup o.agent_id records).getD default))

/-! ### agent.py: the contribution prompt (C9) -/

/-- Rendering of an `Option String` institution field (Python prints
`None` for an unset choice). -/
def showInst (c : Option String) : String :=
  match c with
  | some s => s
  | none => "None"

/-- Python `str` of an allocation dict. -/
def showAlloc (m : List (Nat × Int)) : String :=
  String.intercalate ", " (m.map (fun p => toString p.1 ++ ": " ++ toString p.2))

/-- Two-decimal fixed-point rendering, modelling Python's `"{:.2f}"`
(round half to even on the scaled value). -/
def fmt2 (q : ℚ) : String :=
  let scaled : ℚ := q * 100
  let fl : Int := ⌊scaled⌋
  let frac : ℚ := scaled - (fl : ℚ)
  let n : Int :=
    if frac > 1/2 then fl + 1
    else if frac < 1/2 then fl
    else if fl % 2 = 0 then fl else fl + 1
  let sign := if n < 0 then "-" else ""
  let m := n.natAbs
  sign ++ toString (m / 100) ++ "." ++
    (if m % 100 < 10 then "0" else "") ++ toString (m % 100)

/-- One line of `get_past_actions_string` (agent.py lines 756-791). -/
def past_action_line (entry : Feedback) : String :=
  let received_punishments := entry.data.received_punishments
  let received_rewards := entry.data.received_rewards
  let punishment_tokens_received : Int :=
    if received_punishments > 0 then received_punishments / PUNISHMENT_EFFECT else 0
  let reward_tokens_received : Int :=
    if received_rewards > 0 then received_rewards / REWARD_EFFECT else 0
  "Round " ++ toString entry.round_number ++ ": Institution: "
    ++ showInst entry.data.institution_choice
    ++ ", institution_reasoning: \x27" ++ entry.data.institution_reasoning
    ++ "\x27, Contribution: " ++ toString entry.data.contribution
    ++ ", contribution_reasoning: \x27" ++ entry.data.contribution_reasoning
    ++ "\x27, Stage 1 Payoff: " ++ toString entry.data.stage1_payoff
    ++ ", Stage 2 Payoff: " ++ toString entry.data.stage2_payoff
    ++ ", Total Round Payoff: " ++ toString entry.data.payoff
    ++ ", Received " ++ toString punishment_tokens_received
    ++ " punishment token(s) (total effect: -" ++ toString received_punishments
    ++ " tokens), Received " ++ toString reward_tokens_received
    ++ " reward token(s) (total effect: +" ++ toString received_rewards
    ++ " tokens), Assigned Punishments: " ++ showAlloc entry.data.assigned_punishments
    ++ ", Assigned Rewards: " ++ showAlloc entry.data.assigned_rewards
    ++ ", Punishment Reasoning: \x27" ++ entry.data.punishment_reasoning
    ++ "\x27, Rank: " ++ entry.data.rank

/-- `Agent.get_past_actions_string` (agent.py lines 748-797): format the
last `DISPLAY_PAST_ACTIONS` private-history entries, or a placeholder when
the history is empty. -/
def get_past_actions_string (a : AgentState) : String :=
  let actions := (a.history.drop (a.history.length - DISPLAY_PAST_ACTIONS)).map
    past_action_line
  if actions = [] then "No past actions."
  else String.intercalate "\n" actions

/-- One anonymized peer line of the prompts (agent.py lines 387-396).  The
source reads `entry.get('assigned_punishments', 0)` and
`entry.get('assigned_rewards', 0)` on the anonymized entry; those keys are
never present there (environment.py lines 207-215), so the default `0` is
always printed. -/
def anon_entry_line (i : Nat) (entry : AnonEntry) : String :=
  "Agent " ++ toString (i + 1) ++ ": Institution: "
    ++ showInst entry.institution_choice
    ++ ", Contributed " ++ toString entry.contribution
    ++ " tokens, Assigned Punishments: 0, Assigned Rewards: 0"
    ++ ", Received Punishments: " ++ toString entry.received_punishments
    ++ ", Received Rewards: " ++ toString entry.received_rewards
    ++ ", Stage 1 Payoff: " ++ fmt2 entry.stage1_payoff
    ++ ", Stage 2 Payoff: " ++ fmt2 entry.stage2_payoff
    ++ ", Total Round Payoff: " ++ fmt2 entry.total_round_payoff

/-- One prior-round block of the anonymized-history section of the prompts
(agent.py lines 383-398). -/
def anon_round_block (rd : RoundAnonData) : String :=
  "Round " ++ toString rd.round_number ++ ":\n" ++
    String.intercalate "\n" (rd.anonymous_data.enum.map
      (fun p => anon_entry_line p.1 p.2))

/-- The anonymized-history section of the contribution prompt (agent.py
lines 380-401): the last `DISPLAY_PAST_ACTIONS` prior-round batches, or the
no-data placeholder. -/
def anon_history_section (a : AgentState) : String :=
  if a.anonymous_data_history = [] then
    "\n\nNo data about other agents is available from previous rounds."
  else
    "\n\nAnonymous Data from Previous Rounds (up to last "
      ++ toString DISPLAY_PAST_ACTIONS ++ " rounds):"
      ++ String.join
        ((a.anonymous_data_history.drop
            (a.anonymous_data_history.length - DISPLAY_PAST_ACTIONS)).map
          (fun rd => "\n\n" ++ anon_round_block rd))
      ++ "\n\nAnalyze the contributions and outcomes of other agents over previous rounds. Consider their institution choices when deciding your contribution."

/-- `Agent.construct_contribution_prompt` (agent.py lines 284-416).  The
long fixed instructional prose of the template is abbreviated to short
markers; every piece of interpolated data is kept: the game parameters, the
agent's round number, institution and cumulative payoff, the formatted
past-actions string and the anonymized prior-round history.  As in the
source, the `group_state` parameter is accepted but no field of it is ever
read — the prompt is a function of the agent's own state alone. -/
def construct_contribution_prompt (a : AgentState) (group_state : GroupState) :
    String :=
  let past_actions := get_past_actions_string a
  let institution := showInst a.institution_choice
  "[game rules] Round " ++ toString a.round_number
    ++ " initial tokens " ++ toString INITIAL_TOKENS
    ++ " stage-1 endowment " ++ toString ENDOWMENT_STAGE_1
    ++ " multiplier " ++ toString PUBLIC_GOOD_MULTIPLIER
    ++ " stage-2 endowment " ++ toString ENDOWMENT_STAGE_2
    ++ " punishment cost " ++ toString PUNISHMENT_COST
    ++ " punishment effect " ++ toString PUNISHMENT_EFFECT
    ++ " reward cost " ++ toString REWARD_COST
    ++ " reward effect " ++ toString REWARD_EFFECT
    ++ " max assignable tokens " ++ toString MAX_PUNISHMENT_TOKENS
    ++ "\n\nYou are in Stage 1, in the " ++ institution
    ++ " in Round " ++ toString a.round_number
    ++ "\n\nYour Cumulative Payoff So Far: " ++ toString a.cumulative_payoff
    ++ "\n\nYour Past Actions and Outcomes:\n\n" ++ past_actions
    ++ anon_history_section a
    ++ "\n\nDecide how many tokens (between " ++ toString MIN_CONTRIBUTION
    ++ " and " ++ toString MAX_CONTRIBUTION
    ++ ") you will contribute to the project. [JSON response format]"

/-- `round_data['agents']` with the rank wired in as in environment.py line
149: the agent's entry of the `agent_ranks` dict. -/
def round_records (agents : List AgentState) (s1 s2 : Nat → ℚ) :
    List (Nat × AgentData) :=
  round_agents_map agents s1 s2
    (fun agent_id => (List.lookup agent_id (agent_ranks agents)).getD 0)

/-! ### Concrete states used by witnesses and counterexamples -/

/-- A freshly initialised agent (agent.py `__init__`) with a given id and
contribution, in round 1. -/
def mkTestAgent (id : Nat) (contrib : Int) : AgentState :=
  { agent_id := id
    institution_choice := some "SFI"
    contribution := contrib
    cumulative_payoff := (INITIAL_TOKENS : ℚ)
    round_payoff := 0
    history := []
    received_punishments := 0
    received_rewards := 0
    assigned_punishments := []
    assigned_rewards := []
    round_number := 1
    strategy := "LLM"
    institution_reasoning := ""
    contribution_reasoning := ""
    punishment_reasoning := ""
    anonymous_data_history := []
    current_round_anonymous_data := none
    anonymized_id_mapping := []
    deanonymized_punishment_reasoning := "" }

/-! ## Claims -/

/-- **C9.** An agent's contribution decision is independent of other
agents' current-round state: `construct_contribution_prompt` reads no field
of the group snapshot, so for any two snapshots — in particular two that
differ only in the other members' current-round contributions or in the
partially accumulated contribution data — the prompt sent to the oracle is
identical, and the data the oracle sees carries only the agent's own state
and prior-round anonymized history. -/
theorem contribution_prompt_snapshot_independent (a : AgentState)
    (gs gs' : GroupState) :
    construct_contribution_prompt a gs = construct_contribution_prompt a gs' := rfl

/-- **C8.** Every contribution returned by `parse_contribution_response`
lies in `[MIN_CONTRIBUTION, MAX_CONTRIBUTION]`; a response that fails to
parse as the expected structured object — and likewise a present
`contribution` field that `int()` cannot convert — yields the default
`ENDOWMENT_STAGE_1 / 2` with empty reasoning. -/
theorem parse_contribution_bounds_and_default :
    (∀ resp : Option ParsedContrib,
      MIN_CONTRIBUTION ≤ (parse_contribution_response resp).1 ∧
      (parse_contribution_response resp).1 ≤ MAX_CONTRIBUTION)
    ∧ parse_contribution_response none = (ENDOWMENT_STAGE_1 / 2, "")
    ∧ (∀ reasoning : String,
        parse_contribution_response (some ⟨reasoning, some .bad⟩)
          = (ENDOWMENT_STAGE_1 / 2, "")) := by
  refine ⟨?_, rfl, fun _ => rfl⟩
  intro resp
  match resp with
  | none => exact ⟨by norm_num [parse_contribution_response, MIN_CONTRIBUTION,
      ENDOWMENT_STAGE_1], by norm_num [parse_contribution_response,
      MAX_CONTRIBUTION, ENDOWMENT_STAGE_1]⟩
  | some r =>
    match h : r.contribution with
    | none =>
      simp only [parse_contribution_response, h]
      constructor <;>
        norm_num [MIN_CONTRIBUTION, MAX_CONTRIBUTION, ENDOWMENT_STAGE_1,
          Int.max_def, Int.min_def]
    | some (.val n) =>
      simp only [parse_contribution_response, h]
      constructor <;>
        simp [MIN_CONTRIBUTION, MAX_CONTRIBUTION, ENDOWMENT_STAGE_1,
          Int.max_def, Int.min_def] <;> split <;> omega
    | some .bad =>
      simp only [parse_contribution_response, h]
      constructor <;> norm_num [MIN_CONTRIBUTION, MAX_CONTRIBUTION,
        ENDOWMENT_STAGE_1]

/-- The state exhibiting that `reset_for_new_round` does change the bounded
anonymized history: a fresh agent with a staged (empty) current-round
anonymized batch. -/
def c6Agent : AgentState :=
  { mkTestAgent 0 0 with current_round_anonymous_data := some [] }

/-- **C6 (counterexample).** The claim asserts that after
`reset_for_new_round` both histories are unchanged; but when a
current-round anonymized batch is staged, the bounded anonymized history
gains an entry, so it is not unchanged. -/
theorem reset_changes_bounded_history :
    (reset_for_new_round c6Agent).anonymous_data_history ≠
      c6Agent.anonymous_data_history := by
  simp [reset_for_new_round, c6Agent, mkTestAgent, DISPLAY_PAST_ACTIONS]

/-- **C6 (amended).** After `reset_for_new_round`, the agent's
contribution is 0, its received punishment/reward totals are 0 and its
assigned allocation maps are empty, while its cumulative payoff and its
full private history are unchanged; the bounded anonymized history is
unchanged when no current-round batch is staged, and otherwise gains
exactly the staged batch (evicting the oldest entry when the window is
exceeded), after which the staging slot is empty. -/
theorem reset_for_new_round_spec (a : AgentState) :
    (reset_for_new_round a).contribution = 0 ∧
    (reset_for_new_round a).received_punishments = 0 ∧
    (reset_for_new_round a).received_rewards = 0 ∧
    (reset_for_new_round a).assigned_punishments = [] ∧
    (reset_for_new_round a).assigned_rewards = [] ∧
    (reset_for_new_round a).cumulative_payoff = a.cumulative_payoff ∧
    (reset_for_new_round a).history = a.history ∧
    (reset_for_new_round a).anonymous_data_history =
      (match a.current_round_anonymous_data with
       | none => a.anonymous_data_history
       | some d =>
         let hist := a.anonymous_data_history ++ [RoundAnonData.mk a.round_number d]
         if hist.length > DISPLAY_PAST_ACTIONS then hist.drop 1 else hist) ∧
    (reset_for_new_round a).current_round_anonymous_data = none := by
  cases h : a.current_round_anonymous_data <;>
    simp [reset_for_new_round, h]

/-- **C3.** Scenario A: in a sanction-free institution with two members,
stage-one endowment 20 and multiplier 1.6, contributions 10 and 20 give
stage-one payoffs 34 and 24 and (with the flat stage-two payoff 20) total
round payoffs 54 and 44; in general the stage-one payoff is
(endowment − contribution) + multiplier × total / size, with pool earnings
0 for an empty institution. -/
theorem sfi_scenarioA_payoffs :
    (let inst : InstitutionState :=
      { members := [mkTestAgent 0 10, mkTestAgent 1 20]
        total_contribution := 0, group_size := 0, round_number := 1
        stage1_payoffs := [], anonymized_contributions := [] }
     let inst := distribute_public_goods (collect_contributions inst)
     List.lookup 0 inst.stage1_payoffs = some 34 ∧
     List.lookup 1 inst.stage1_payoffs = some 24 ∧
     (sfi_calculate_payoffs inst).members.map
        (fun a => (a.agent_id, a.round_payoff)) = [(0, 54), (1, 44)])
    ∧ (∀ (a : AgentState) (t : ℚ),
        get_stage1_payoff a 0 t = (ENDOWMENT_STAGE_1 : ℚ) - (a.contribution : ℚ))
    ∧ (∀ (a : AgentState) (n : Nat) (t : ℚ), 0 < n →
        get_stage1_payoff a n t =
          ((ENDOWMENT_STAGE_1 : ℚ) - (a.contribution : ℚ)) +
            PUBLIC_GOOD_MULTIPLIER * t / (n : ℚ)) := by
  refine ⟨⟨?_, ?_, ?_⟩, fun a t => by simp [get_stage1_payoff], fun a n t hn => by
    simp [get_stage1_payoff, hn]⟩ <;>
  · simp only [collect_contributions, distribute_public_goods,
      sfi_calculate_payoffs, update_payoff, get_stage1_payoff, mkTestAgent,
      List.map, List.lookup, List.sum_cons, List.sum_nil]
    norm_num [ENDOWMENT_STAGE_1, ENDOWMENT_STAGE_2, PUBLIC_GOOD_MULTIPLIER,
      show ((1:ℕ) == (0:ℕ)) = false from rfl,
      show ((0:ℕ) == (0:ℕ)) = true from rfl,
      show ((1:ℕ) == (1:ℕ)) = true from rfl]

/-- Witness for the hypothesis-bearing conjunct of
`sfi_scenarioA_payoffs`: the general stage-one formula evaluated for a
concrete member of a 2-member institution with total contribution 30. -/
theorem sfi_scenarioA_payoffs_witness :
    (0 : Nat) < 2 ∧ get_stage1_payoff (mkTestAgent 0 10) 2 30 = 34 :=
  ⟨by decide,
   by rw [(sfi_scenarioA_payoffs).2.2 (mkTestAgent 0 10) 2 30 (by decide)]
      norm_num [mkTestAgent, ENDOWMENT_STAGE_1, PUBLIC_GOOD_MULTIPLIER]⟩

/-! ### Budget lemmas for the allocation parser -/

lemma dictValSum_nil : dictValSum [] = 0 := rfl

lemma dictValSum_cons (p : Nat × Int) (l : List (Nat × Int)) :
    dictValSum (p :: l) = p.2 + dictValSum l := by
  simp [dictValSum]

lemma dictValSum_append_single (m : List (Nat × Int)) (p : Nat × Int) :
    dictValSum (m ++ [p]) = dictValSum m + p.2 := by
  simp [dictValSum]

lemma keys_map_replace (m : List (Nat × Int)) (k : Nat) (v : Int) :
    (m.map (fun p => if p.1 = k then (k, v) else p)).map Prod.fst
      = m.map Prod.fst := by
  induction m with
  | nil => rfl
  | cons hd tl ih =>
    by_cases h : hd.1 = k <;> simp [h, ih]

lemma map_replace_of_not_mem (m : List (Nat × Int)) (k : Nat) (v : Int)
    (h : k ∉ m.map Prod.fst) :
    m.map (fun p => if p.1 = k then (k, v) else p) = m := by
  induction m with
  | nil => rfl
  | cons hd tl ih =>
    simp only [List.map_cons, List.mem_cons, not_or] at h
    simp [Ne.symm h.1, ih h.2]

lemma dictValSum_replace_le (m : List (Nat × Int)) (k : Nat) (v : Int)
    (hv : 0 ≤ v) (hnd : (m.map Prod.fst).Nodup) (hm : ∀ p ∈ m, 0 ≤ p.2) :
    dictValSum (m.map (fun p => if p.1 = k then (k, v) else p))
      ≤ dictValSum m + v := by
  induction m with
  | nil => simpa [dictValSum] using hv
  | cons hd tl ih =>
    simp only [List.map_cons, List.nodup_cons] at hnd
    by_cases h : hd.1 = k
    · subst h
      rw [List.map_cons, if_pos rfl, map_replace_of_not_mem tl hd.1 v hnd.1]
      have h0 : 0 ≤ hd.2 := hm hd (List.mem_cons_self _ _)
      simp only [dictValSum_cons]
      omega
    · rw [List.map_cons, if_neg h]
      have := ih hnd.2 (fun p hp => hm p (List.mem_cons_of_mem _ hp))
      simp only [dictValSum_cons]
      omega

lemma dictValSum_insert_le (m : List (Nat × Int)) (k : Nat) (v : Int)
    (hv : 0 ≤ v) (hnd : (m.map Prod.fst).Nodup) (hm : ∀ p ∈ m, 0 ≤ p.2) :
    dictValSum (dictInsert m k v) ≤ dictValSum m + v := by
  unfold dictInsert
  by_cases h : m.any (fun p => p.1 = k)
  · rw [if_pos h]
    exact dictValSum_replace_le m k v hv hnd hm
  · rw [if_neg h, dictValSum_append_single]

lemma dictInsert_keys_nodup (m : List (Nat × Int)) (k : Nat) (v : Int)
    (hnd : (m.map Prod.fst).Nodup) :
    ((dictInsert m k v).map Prod.fst).Nodup := by
  unfold dictInsert
  by_cases h : m.any (fun p => p.1 = k)
  · rw [if_pos h, keys_map_replace]
    exact hnd
  · rw [if_neg h]
    have hk : k ∉ m.map Prod.fst := by
      intro hmem
      rcases List.mem_map.mp hmem with ⟨p, hp, hpk⟩
      exact h (List.any_eq_true.mpr ⟨p, hp, by simp [hpk]⟩)
    simp [List.nodup_append, hnd, hk]

lemma dictInsert_vals_nonneg (m : List (Nat × Int)) (k : Nat) (v : Int)
    (hm : ∀ p ∈ m, 0 ≤ p.2) (hv : 0 ≤ v) :
    ∀ p ∈ dictInsert m k v, 0 ≤ p.2 := by
  unfold dictInsert
  by_cases h : m.any (fun p => p.1 = k)
  · rw [if_pos h]
    intro p hp
    rcases List.mem_map.mp hp with ⟨q, hq, rfl⟩
    by_cases hqk : q.1 = k
    · simpa [hqk] using hv
    · simpa [hqk] using hm q hq
  · rw [if_neg h]
    intro p hp
    rcases List.mem_append.mp hp with hp | hp
    · exact hm p hp
    · simp at hp
      simp [hp, hv]

/-- Budget invariant of the allocation loops: a successful pass over the
entries with remaining budget `rem ≥ 0` and an accumulator with distinct
keys and nonnegative values produces an accumulator/budget pair whose sum
does not grow, a nonnegative final budget, and again distinct keys and
nonnegative values. -/
lemma processAlloc_budget (members : List Nat) :
    ∀ (entries : List (List Char × PyTok)) (rem : Int) (acc : List (Nat × Int)),
      0 ≤ rem → (acc.map Prod.fst).Nodup → (∀ p ∈ acc, 0 ≤ p.2) →
      ∀ out, processAlloc members entries rem acc = some out →
        dictValSum out.1 + out.2 ≤ dictValSum acc + rem ∧ 0 ≤ out.2 ∧
        (out.1.map Prod.fst).Nodup ∧ (∀ p ∈ out.1, 0 ≤ p.2) := by
  intro entries
  induction entries with
  | nil =>
    intro rem acc hrem hnd hvals out hout
    simp only [processAlloc, Option.some.injEq] at hout
    subst hout
    exact ⟨le_refl _, hrem, hnd, hvals⟩
  | cons e rest ih =>
    intro rem acc hrem hnd hvals out hout
    rcases e with ⟨key, tv⟩
    rw [processAlloc] at hout
    cases hkey : pyIntOfStr (clean_agent_key key) with
    | none =>
      simp only [hkey] at hout
      exact ih rem acc hrem hnd hvals out hout
    | some n =>
      simp only [hkey] at hout
      by_cases hin : 1 ≤ n ∧ n ≤ (members.length : Int)
      · rw [if_pos hin] at hout
        cases tv with
        | bad => simp at hout
        | val t =>
          simp only at hout
          have h0t : (0 : Int) ≤ max 0 (min t rem) := le_max_left 0 _
          have htle : max 0 (min t rem) ≤ rem :=
            max_le hrem (min_le_right t rem)
          have hsum := dictValSum_insert_le acc
            (members.getD (n - 1).toNat 0) (max 0 (min t rem)) h0t hnd hvals
          have hnd' := dictInsert_keys_nodup acc
            (members.getD (n - 1).toNat 0) (max 0 (min t rem)) hnd
          have hvals' := dictInsert_vals_nonneg acc
            (members.getD (n - 1).toNat 0) (max 0 (min t rem)) hvals h0t
          by_cases hstop : rem - max 0 (min t rem) ≤ 0
          · rw [if_pos hstop] at hout
            simp only [Option.some.injEq] at hout
            subst hout
            refine ⟨by simp only []; omega, by simp only []; omega,
              hnd', hvals'⟩
          · rw [if_neg hstop] at hout
            have hres := ih (rem - max 0 (min t rem))
              (dictInsert acc (members.getD (n - 1).toNat 0) (max 0 (min t rem)))
              (by omega) hnd' hvals' out hout
            exact ⟨by have := hres.1; omega, hres.2.1, hres.2.2.1, hres.2.2.2⟩
      · rw [if_neg hin] at hout
        exact ih rem acc hrem hnd hvals out hout

/-- **C4.** For every oracle response and every group snapshot, the
punishment and reward allocations returned by `parse_punishment_response`
together never exceed the stage-two endowment; hence after
`assign_punishment` an agent's assigned punishments plus assigned rewards
never exceed the stage-two token budget. -/
theorem allocation_budget_le_endowment (resp : Option ParsedAlloc)
    (members : List Nat) (a : AgentState) :
    (dictValSum (parse_punishment_response resp members).1 +
      dictValSum (parse_punishment_response resp members).2.1
      ≤ ENDOWMENT_STAGE_2) ∧
    (dictValSum (assign_punishment a resp members).1.assigned_punishments +
      dictValSum (assign_punishment a resp members).1.assigned_rewards
      ≤ ENDOWMENT_STAGE_2) := by
  have main : dictValSum (parse_punishment_response resp members).1 +
      dictValSum (parse_punishment_response resp members).2.1
      ≤ ENDOWMENT_STAGE_2 := by
    cases resp with
    | none => simp [parse_punishment_response, dictValSum_nil, ENDOWMENT_STAGE_2]
    | some r =>
      unfold parse_punishment_response
      cases hp : processAlloc members r.punishments ENDOWMENT_STAGE_2 [] with
      | none =>
        simp only [show (20 : Int) = ENDOWMENT_STAGE_2 from rfl, hp,
          dictValSum_nil]
        decide
      | some pr =>
        cases hr : processAlloc members r.rewards pr.2 [] with
        | none =>
          simp only [show (20 : Int) = ENDOWMENT_STAGE_2 from rfl, hp, hr,
            dictValSum_nil]
          decide
        | some rr =>
          have h1 := processAlloc_budget members r.punishments ENDOWMENT_STAGE_2
            [] (by norm_num [ENDOWMENT_STAGE_2]) (by simp) (by simp) pr hp
          have h2 := processAlloc_budget members r.rewards pr.2
            [] h1.2.1 (by simp) (by simp) rr hr
          have e1 := h1.1
          have e2 := h2.1
          have hrr := h2.2.1
          simp only [dictValSum_nil] at e1 e2
          simp only [show (20 : Int) = ENDOWMENT_STAGE_2 from rfl, hp, hr]
          omega
  refine ⟨main, ?_⟩
  simpa [assign_punishment] using main

/-! ### Unfolding and skipping lemmas for the allocation loops -/

lemma processAlloc_cons (members : List Nat) (key : List Char) (tv : PyTok)
    (rest : List (List Char × PyTok)) (rem : Int) (acc : List (Nat × Int)) :
    processAlloc members ((key, tv) :: rest) rem acc =
      match pyIntOfStr (clean_agent_key key) with
      | none => processAlloc members rest rem acc
      | some n =>
        if 1 ≤ n ∧ n ≤ (members.length : Int) then
          match tv with
          | .bad => none
          | .val t =>
            let t' := max 0 (min t rem)
            let agent_id := members.getD (n - 1).toNat 0
            let acc' := dictInsert acc agent_id t'
            let rem' := rem - t'
            if rem' ≤ 0 then some (acc', rem')
            else processAlloc members rest rem' acc'
        else processAlloc members rest rem acc := rfl

/-- An entry whose key does not clean to an integer is transparent to the
allocation loop: deleting it changes nothing. -/
lemma processAlloc_skip_key (members : List Nat) (k : List Char) (tv : PyTok)
    (hk : pyIntOfStr (clean_agent_key k) = none) :
    ∀ (pre post : List (List Char × PyTok)) (rem : Int) (acc : List (Nat × Int)),
      processAlloc members (pre ++ (k, tv) :: post) rem acc
        = processAlloc members (pre ++ post) rem acc := by
  intro pre
  induction pre with
  | nil =>
    intro post rem acc
    simp only [List.nil_append]
    rw [processAlloc_cons]
    simp only [hk]
  | cons e tl ih =>
    intro post rem acc
    rcases e with ⟨key, t⟩
    simp only [List.cons_append]
    rw [processAlloc_cons, processAlloc_cons]
    cases hkey : pyIntOfStr (clean_agent_key key) with
    | none =>
      simp only [hkey]
      exact ih post rem acc
    | some n =>
      simp only [hkey]
      by_cases hin : 1 ≤ n ∧ n ≤ (members.length : Int)
      · rw [if_pos hin, if_pos hin]
        cases t with
        | bad => rfl
        | val t0 =>
          simp only []
          by_cases hstop : rem - max 0 (min t0 rem) ≤ 0
          · rw [if_pos hstop, if_pos hstop]
          · rw [if_neg hstop, if_neg hstop]
            exact ih post _ _
      · rw [if_neg hin, if_neg hin]
        exact ih post rem acc

/-- **C1.** Scenario C: with stage-two endowment 20 and at least three
members in the snapshot, a response whose punishments start
`{"1": 15, "2": 10}` and whose rewards start `{"3": 5}` records punishment
tokens 15 for the first peer and 5 for the second (clamped by the shared
budget, which reaches 0), a single zero-token reward entry for the third
peer, and drops every further entry in either mapping; the shared budget
starts at the stage-two endowment, is consumed first by the punishment
mapping and then by the reward mapping, each entry clamped to
`max 0 (min requested remaining)`. -/
theorem parse_scenarioC (members : List Nat) (h3 : 3 ≤ members.length)
    (hnd : members.Nodup) (extraP extraR : List (List Char × PyTok))
    (reasoning : String) :
    parse_punishment_response
      (some ⟨reasoning, (['1'], .val 15) :: (['2'], .val 10) :: extraP,
        (['3'], .val 5) :: extraR⟩) members
    = ([(members.getD 0 0, 15), (members.getD 1 0, 5)],
       [(members.getD 2 0, 0)], reasoning) := by
  rcases members with _ | ⟨m0, ms⟩
  · simp at h3
  rcases ms with _ | ⟨m1, ms⟩
  · norm_num [List.length_cons] at h3
  rcases ms with _ | ⟨m2, rest⟩
  · norm_num [List.length_cons] at h3
  have hm01 : m0 ≠ m1 := by
    simp [List.nodup_cons] at hnd
    exact hnd.1.1
  have hg1 : ((1:Int) ≤ 1 ∧ (1:Int) ≤ ((m0 :: m1 :: m2 :: rest).length : Int)) := by
    refine ⟨le_refl _, ?_⟩
    simp only [List.length_cons]
    push_cast
    omega
  have hg2 : ((1:Int) ≤ 2 ∧ (2:Int) ≤ ((m0 :: m1 :: m2 :: rest).length : Int)) := by
    refine ⟨by norm_num, ?_⟩
    simp only [List.length_cons]
    push_cast
    omega
  have hg3 : ((1:Int) ≤ 3 ∧ (3:Int) ≤ ((m0 :: m1 :: m2 :: rest).length : Int)) := by
    refine ⟨by norm_num, ?_⟩
    simp only [List.length_cons]
    push_cast
    omega
  have ep : processAlloc (m0 :: m1 :: m2 :: rest)
      ((['1'], PyTok.val 15) :: (['2'], PyTok.val 10) :: extraP)
      ENDOWMENT_STAGE_2 [] = some ([(m0, 15), (m1, 5)], 0) := by
    rw [processAlloc_cons]
    simp only [show pyIntOfStr (clean_agent_key ['1']) = some 1 from by decide]
    rw [if_pos hg1]
    simp only [show (max 0 (min 15 ENDOWMENT_STAGE_2) : Int) = 15 from by decide,
      show ((1:Int) - 1).toNat = 0 from by decide, List.getD]
    simp only [ENDOWMENT_STAGE_2, List.get?, Option.getD_some, dictInsert,
      List.any_nil, Bool.false_eq_true, if_false, List.nil_append]
    norm_num
    rw [processAlloc_cons]
    simp only [show pyIntOfStr (clean_agent_key ['2']) = some 2 from by decide]
    rw [if_pos hg2]
    simp only [show (max 0 (min 10 (20 - 15 : Int)) : Int) = 5 from by decide,
      show ((2:Int) - 1).toNat = 1 from by decide, List.getD]
    simp only [List.get?, Option.getD_some, dictInsert, List.any_cons,
      List.any_nil, hm01, decide_eq_true_eq]
    norm_num [hm01]
  have er : processAlloc (m0 :: m1 :: m2 :: rest)
      ((['3'], PyTok.val 5) :: extraR) 0 [] = some ([(m2, 0)], 0) := by
    rw [processAlloc_cons]
    simp only [show pyIntOfStr (clean_agent_key ['3']) = some 3 from by decide]
    rw [if_pos hg3]
    simp only [show (max 0 (min 5 (0 : Int)) : Int) = 0 from by decide,
      show ((3:Int) - 1).toNat = 2 from by decide, List.getD]
    simp only [List.get?, Option.getD_some, dictInsert, List.any_nil,
      Bool.false_eq_true, if_false, List.nil_append]
    norm_num
  simp only [List.getD, List.get?, Option.getD_some]
  simp only [parse_punishment_response, ep, er]

/-- Witness for `parse_scenarioC`: the three-member snapshot `[0, 1, 2]`. -/
theorem parse_scenarioC_witness :
    3 ≤ ([0, 1, 2] : List Nat).length ∧ ([0, 1, 2] : List Nat).Nodup ∧
    parse_punishment_response
      (some ⟨"w", [(['1'], .val 15), (['2'], .val 10)], [(['3'], .val 5)]⟩)
      [0, 1, 2]
    = ([(0, 15), (1, 5)], [(2, 0)], "w") :=
  ⟨by decide, by decide,
   parse_scenarioC [0, 1, 2] (by decide) (by decide) [] [] "w"⟩

/-- **C10.** In `parse_punishment_response`, an alias key that does not
convert to an integer is skipped (in either mapping) and the remaining
entries are processed unchanged; but a token value that `int()` cannot
convert, attached to a valid in-range alias, escapes the per-entry
handling: the whole response is treated as a parse failure — both returned
allocation maps are empty and the punishment reasoning is reset to the
empty string, discarding even entries validly processed earlier. -/
theorem parse_error_entry_handling (members : List Nat)
    (h2 : 2 ≤ members.length) (reasoning : String)
    (rews : List (List Char × PyTok)) :
    (∀ (k : List Char) (tv : PyTok), pyIntOfStr (clean_agent_key k) = none →
      ∀ pre post,
        parse_punishment_response
          (some ⟨reasoning, pre ++ (k, tv) :: post, rews⟩) members
        = parse_punishment_response (some ⟨reasoning, pre ++ post, rews⟩) members)
    ∧ (∀ (k : List Char) (tv : PyTok), pyIntOfStr (clean_agent_key k) = none →
      ∀ pre post puns,
        parse_punishment_response
          (some ⟨reasoning, puns, pre ++ (k, tv) :: post⟩) members
        = parse_punishment_response (some ⟨reasoning, puns, pre ++ post⟩) members)
    ∧ parse_punishment_response
        (some ⟨reasoning, [(['2'], .val 3), (['1'], .bad)], rews⟩) members
      = ([], [], "") := by
  refine ⟨?_, ?_, ?_⟩
  · intro k tv hk pre post
    simp only [parse_punishment_response]
    rw [processAlloc_skip_key members k tv hk pre post]
  · intro k tv hk pre post puns
    simp only [parse_punishment_response]
    cases hp : processAlloc members puns ENDOWMENT_STAGE_2 [] with
    | none => simp only [hp]
    | some pr =>
      simp only [hp]
      rcases pr with ⟨p, rem⟩
      simp only []
      rw [processAlloc_skip_key members k tv hk pre post]
  · rcases members with _ | ⟨m0, ms⟩
    · simp at h2
    rcases ms with _ | ⟨m1, rest⟩
    · norm_num [List.length_cons] at h2
    have hg2 : ((1:Int) ≤ 2 ∧ (2:Int) ≤ ((m0 :: m1 :: rest).length : Int)) := by
      refine ⟨by norm_num, ?_⟩
      simp only [List.length_cons]
      push_cast
      omega
    have hg1 : ((1:Int) ≤ 1 ∧ (1:Int) ≤ ((m0 :: m1 :: rest).length : Int)) := by
      refine ⟨le_refl _, ?_⟩
      simp only [List.length_cons]
      push_cast
      omega
    have ep : processAlloc (m0 :: m1 :: rest)
        [(['2'], PyTok.val 3), (['1'], PyTok.bad)] ENDOWMENT_STAGE_2 []
        = none := by
      rw [processAlloc_cons]
      simp only [show pyIntOfStr (clean_agent_key ['2']) = some 2 from by decide]
      rw [if_pos hg2]
      simp only [show (max 0 (min 3 ENDOWMENT_STAGE_2) : Int) = 3 from by decide,
        show ((2:Int) - 1).toNat = 1 from by decide, List.getD]
      simp only [ENDOWMENT_STAGE_2, List.get?, Option.getD_some, dictInsert,
        List.any_nil, Bool.false_eq_true, if_false, List.nil_append]
      norm_num
      rw [processAlloc_cons]
      simp only [show pyIntOfStr (clean_agent_key ['1']) = some 1 from by decide]
      rw [if_pos hg1]
    simp only [parse_punishment_response, ep]

/-- Witness for `parse_error_entry_handling`: the two-member snapshot
`[5, 6]`, the skipped non-integer key `"x"`, and the bad-token response. -/
theorem parse_error_entry_handling_witness :
    2 ≤ ([5, 6] : List Nat).length ∧
    pyIntOfStr (clean_agent_key ['x']) = none ∧
    parse_punishment_response
      (some ⟨"w", [(['x'], .val 1), (['1'], .val 4)], []⟩) [5, 6]
    = parse_punishment_response (some ⟨"w", [(['1'], .val 4)], []⟩) [5, 6] ∧
    parse_punishment_response
      (some ⟨"w", [(['2'], .val 3), (['1'], .bad)], []⟩) [5, 6]
    = ([], [], "") :=
  ⟨by decide, by decide,
   (parse_error_entry_handling [5, 6] (by decide) "w" []).1 ['x'] (.val 1)
     (by decide) [] [(['1'], .val 4)],
   (parse_error_entry_handling [5, 6] (by decide) "w" []).2.2⟩

/-! ### C2: the decide/apply phase separation -/

/-- The observable that the decide phase must not touch: identity and the
two received totals. -/
def receivedProj (a : AgentState) : Nat × Int × Int :=
  (a.agent_id, a.received_punishments, a.received_rewards)

lemma map_set_eq_map {α β : Type} (f : α → β) (l : List α) (i : Nat) (x a : α)
    (h : l.get? i = some a) (hf : f x = f a) :
    (l.set i x).map f = l.map f := by
  induction l generalizing i with
  | nil => simp
  | cons hd tl ih =>
    cases i with
    | zero =>
      simp only [List.get?] at h
      cases h
      simp [List.set, hf]
    | succ n =>
      simp only [List.get?] at h
      simp [List.set, ih n h]

lemma handle_one_receivedProj (resps : Nat → Option ParsedAlloc)
    (st : SIRound) (i : Nat) :
    (handle_one resps st i).members.map receivedProj
      = st.members.map receivedProj := by
  unfold handle_one
  cases h : st.members.get? i with
  | none => rfl
  | some agent =>
    simp only []
    exact map_set_eq_map receivedProj st.members i _ agent h rfl

lemma foldl_handle_receivedProj (resps : Nat → Option ParsedAlloc)
    (l : List Nat) (st : SIRound) :
    (l.foldl (handle_one resps) st).members.map receivedProj
      = st.members.map receivedProj := by
  induction l generalizing st with
  | nil => rfl
  | cons hd tl ih => rw [List.foldl_cons, ih, handle_one_receivedProj]

/-- **C2.** The sanctioning institution's decide phase
(`handle_punishments_and_rewards`) never mutates any member's
received-punishment or received-reward total; only the strictly later
apply phase (`apply_punishments_and_rewards`) credits each member, adding
(sum over all punishers of tokens directed at it in the punishment matrix)
× `PUNISHMENT_EFFECT` to its received-punishment total and symmetrically
(sum of reward tokens directed at it) × `REWARD_EFFECT` to its
received-reward total. -/
theorem decide_apply_phase_separation (resps : Nat → Option ParsedAlloc)
    (st : SIRound) :
    ((handle_punishments_and_rewards resps st).members.map receivedProj
      = st.members.map receivedProj)
    ∧ ((apply_punishments_and_rewards st).members.map receivedProj
      = st.members.map (fun a => (a.agent_id,
          a.received_punishments
            + matrixRowSum st.punishment_matrix a.agent_id * PUNISHMENT_EFFECT,
          a.received_rewards
            + matrixRowSum st.reward_matrix a.agent_id * REWARD_EFFECT))) := by
  constructor
  · exact foldl_handle_receivedProj resps _ st
  · simp [apply_punishments_and_rewards, apply_one, receive_punishment,
      receive_reward, receivedProj]

/-! ### C5: rank computation -/

lemma enumFrom_map_idx_succ (s : Nat) (l : List (Nat × ℚ)) :
    (List.enumFrom s l).map (fun p => p.1 + 1) = List.range' (s + 1) l.length := by
  induction l generalizing s with
  | nil => rfl
  | cons hd tl ih => simp [List.enumFrom, List.range', ih]

lemma sortDesc_trans :
    ∀ (a b c : Nat × ℚ), (fun x y : Nat × ℚ => decide (y.2 ≤ x.2)) a b = true →
      (fun x y : Nat × ℚ => decide (y.2 ≤ x.2)) b c = true →
      (fun x y : Nat × ℚ => decide (y.2 ≤ x.2)) a c = true := by
  intro a b c hab hbc
  simp only [decide_eq_true_eq] at hab hbc ⊢
  exact le_trans hbc hab

lemma sortDesc_total :
    ∀ (a b : Nat × ℚ), ((fun x y : Nat × ℚ => decide (y.2 ≤ x.2)) a b ||
      (fun x y : Nat × ℚ => decide (y.2 ≤ x.2)) b a) = true := by
  intro a b
  simpa using le_total b.2 a.2

/-- **C5.** The ranks of a round record over N agents form a dense
permutation 1..N obtained by a stable descending sort of the population by
cumulative payoff: the sorted list is pairwise-descending, ties keep the
population's relative order, the rank values in sorted order are exactly
1..N, the ranked ids are a permutation of the population's ids, and each
agent's record carries the rank string `"<rank> out of <N>"`. -/
theorem round_ranks_spec (agents : List AgentState) (s1 s2 : Nat → ℚ) :
    ((agent_ranks agents).map Prod.snd = List.range' 1 agents.length)
    ∧ ((agent_ranks agents).map Prod.fst).Perm
        (agents.map (fun a => a.agent_id))
    ∧ (sorted_payoffs agents).Pairwise (fun x y => y.2 ≤ x.2)
    ∧ (∀ x y : Nat × ℚ, x.2 = y.2 →
        [x, y].Sublist (agent_cumulative_payoffs agents) →
        [x, y].Sublist (sorted_payoffs agents))
    ∧ ((round_records agents s1 s2).map (fun p => (p.1, p.2.rank))
        = agents.map (fun a => (a.agent_id,
            rank_string ((List.lookup a.agent_id (agent_ranks agents)).getD 0)
              agents.length))) := by
  have hperm := List.mergeSort_perm (agent_cumulative_payoffs agents)
    (fun x y => decide (y.2 ≤ x.2))
  have hlen : (sorted_payoffs agents).length = agents.length := by
    have := hperm.length_eq
    simpa [sorted_payoffs, agent_cumulative_payoffs] using this
  refine ⟨?_, ?_, ?_, ?_, ?_⟩
  · simp only [agent_ranks, List.map_map]
    have hcomp : (Prod.snd ∘ fun p : Nat × (Nat × ℚ) => (p.2.1, p.1 + 1))
        = fun p : Nat × (Nat × ℚ) => p.1 + 1 := rfl
    rw [hcomp, List.enum, enumFrom_map_idx_succ, hlen]
  · have h1 : (agent_ranks agents).map Prod.fst
        = (sorted_payoffs agents).map Prod.fst := by
      simp only [agent_ranks, List.map_map]
      have hcomp : (Prod.fst ∘ fun p : Nat × (Nat × ℚ) => (p.2.1, p.1 + 1))
          = Prod.fst ∘ Prod.snd := rfl
      rw [hcomp, ← List.map_map, List.enum_map_snd]
    rw [h1]
    have h2 := hperm.map Prod.fst
    have h3 : (agent_cumulative_payoffs agents).map Prod.fst
        = agents.map (fun a => a.agent_id) := by
      simp [agent_cumulative_payoffs, List.map_map]
    rw [← h3]
    exact h2
  · have := List.sorted_mergeSort sortDesc_trans sortDesc_total
      (agent_cumulative_payoffs agents)
    refine this.imp ?_
    intro a b h
    exact of_decide_eq_true h
  · intro x y hxy hsub
    refine List.mergeSort_stable_pair sortDesc_trans sortDesc_total ?_ hsub
    simp [hxy]
  · simp only [round_records, round_agents_map, mk_agent_data, List.map_map]
    rfl

/-- Witness for `round_ranks_spec`: two freshly initialised agents share
the initial cumulative payoff of 1000, and the tie keeps their population
order in the sorted list. -/
theorem round_ranks_spec_witness :
    (((0:Nat), (1000:ℚ)).2 = ((1:Nat), (1000:ℚ)).2) ∧
    [((0:Nat), (1000:ℚ)), ((1:Nat), (1000:ℚ))].Sublist
      (agent_cumulative_payoffs [mkTestAgent 0 10, mkTestAgent 1 20]) ∧
    [((0:Nat), (1000:ℚ)), ((1:Nat), (1000:ℚ))].Sublist
      (sorted_payoffs [mkTestAgent 0 10, mkTestAgent 1 20]) := by
  have hsub : [((0:Nat), (1000:ℚ)), ((1:Nat), (1000:ℚ))].Sublist
      (agent_cumulative_payoffs [mkTestAgent 0 10, mkTestAgent 1 20]) := by
    have : agent_cumulative_payoffs [mkTestAgent 0 10, mkTestAgent 1 20]
        = [((0:Nat), (1000:ℚ)), ((1:Nat), (1000:ℚ))] := by
      simp [agent_cumulative_payoffs, mkTestAgent, INITIAL_TOKENS]
    rw [this]
  exact ⟨rfl, hsub,
    (round_ranks_spec [mkTestAgent 0 10, mkTestAgent 1 20]
      (fun _ => 0) (fun _ => 0)).2.2.2.1 _ _ rfl hsub⟩

/-! ### C7: the anonymized batch -/

lemma lookup_map_mk {α : Type} (f : AgentState → α) (l : List AgentState)
    (o : AgentState) (ho : o ∈ l)
    (hnd : (l.map (fun a => a.agent_id)).Nodup) :
    List.lookup o.agent_id (l.map (fun a => (a.agent_id, f a))) = some (f o) := by
  induction l with
  | nil => simp at ho
  | cons hd tl ih =>
    simp only [List.map_cons, List.nodup_cons] at hnd
    rcases List.mem_cons.mp ho with rfl | hmem
    · simp [List.lookup]
    · by_cases h : o.agent_id = hd.agent_id
      · exfalso
        exact hnd.1 (h ▸ List.mem_map.mpr ⟨o, hmem, rfl⟩)
      · have hbeq : (o.agent_id == hd.agent_id) = false := by
          simpa using h
        simp only [List.map_cons, List.lookup, hbeq]
        exact ih hmem hnd.2

/-- **C7.** For every observer, the current-round anonymized batch built in
`record_round_history` contains, in population order, exactly one entry for
each agent whose id differs from the observer's — each entry the seven-field
anonymized projection of that agent's full round record — and no entry for
the observer itself; moreover the projection is oblivious to the record's
assigned-punishment/assigned-reward maps, reasoning strings and identity
field, so no assigned-allocation detail or identity can reach the batch. -/
theorem anonymized_batch_spec (agents : List AgentState)
    (hnd : (agents.map (fun a => a.agent_id)).Nodup)
    (s1 s2 : Nat → ℚ) (rk : Nat → Nat) (observer_id : Nat) :
    (build_anonymous_data agents (round_agents_map agents s1 s2 rk) observer_id
      = (agents.filter (fun o => o.agent_id ≠ observer_id)).map (fun o =>
          anonymize (mk_agent_data o (s1 o.agent_id) (s2 o.agent_id)
            (rk o.agent_id) agents.length)))
    ∧ (∀ (o : AgentState) (st1 st2 : ℚ) (r n : Nat)
        (ap ar : List (Nat × Int)) (pr dr ir cr : String) (id' : Nat),
        anonymize (mk_agent_data
          { o with assigned_punishments := ap, assigned_rewards := ar,
                   punishment_reasoning := pr,
                   deanonymized_punishment_reasoning := dr,
                   institution_reasoning := ir, contribution_reasoning := cr,
                   agent_id := id' } st1 st2 r n)
          = anonymize (mk_agent_data o st1 st2 r n)) := by
  constructor
  · unfold build_anonymous_data round_agents_map
    refine List.map_congr_left ?_
    intro o ho
    have hmem : o ∈ agents := List.mem_of_mem_filter ho
    rw [lookup_map_mk _ agents o hmem hnd]
    rfl
  · intro o st1 st2 r n ap ar pr dr ir cr id'
    rfl

/-- Witness for `anonymized_batch_spec`: a two-agent population observed by
agent 0. -/
theorem anonymized_batch_spec_witness :
    (([mkTestAgent 0 10, mkTestAgent 1 20].map (fun a => a.agent_id)).Nodup) ∧
    build_anonymous_data [mkTestAgent 0 10, mkTestAgent 1 20]
      (round_agents_map [mkTestAgent 0 10, mkTestAgent 1 20]
        (fun _ => 0) (fun _ => 0) (fun _ => 1)) 0
    = ([mkTestAgent 0 10, mkTestAgent 1 20].filter
        (fun o => o.agent_id ≠ 0)).map (fun o =>
        anonymize (mk_agent_data o 0 0 1
          [mkTestAgent 0 10, mkTestAgent 1 20].length)) :=
  ⟨by decide,
   (anonymized_batch_spec [mkTestAgent 0 10, mkTestAgent 1 20] (by decide)
     (fun _ => 0) (fun _ => 0) (fun _ => 1) 0).1⟩

end SanctSim
